import Mathlib

/-!
# Formal model of the `split_controller` library

A shallow embedding of the Rust crate `split_controller` (files `src/lib.rs` and
`src/math.rs`).  The `f64` scalars of the source are modelled as exact rationals;
mouse events are modelled by the three accessors the library reads from a
`GenericEvent` (cursor position, button press, button release).
-/

namespace SplitLib

/-- Scalar type of the model (`f64` in the source, idealised as `ℚ`). -/
abbrev Scalar := ℚ

/-- A 2D vector `[x, y]` (`Vec2d` in `math.rs`). -/
structure Vec2d where
  x : Scalar
  y : Scalar
deriving DecidableEq

/-- Rectangle dimensions `[x, y, w, h]` (`Rectangle` in `math.rs`). -/
structure Rectangle where
  x : Scalar
  y : Scalar
  w : Scalar
  h : Scalar
deriving DecidableEq

/-- A row-major 2x3 affine matrix (`Matrix2d` in `math.rs`, from the `vecmath` crate). -/
structure Matrix2d where
  m00 : Scalar
  m01 : Scalar
  m02 : Scalar
  m10 : Scalar
  m11 : Scalar
  m12 : Scalar
deriving DecidableEq

/-- `math.rs::is_inside`: true if the point is inside the rectangle (half-open test). -/
def is_inside (pos : Vec2d) (rect : Rectangle) : Bool :=
  decide (pos.x ≥ rect.x) && decide (pos.y ≥ rect.y) &&
  decide (pos.x < rect.x + rect.w) && decide (pos.y < rect.y + rect.h)

/-- `vecmath::mat2x3_det`. -/
def mat2x3_det (m : Matrix2d) : Scalar := m.m00 * m.m11 - m.m01 * m.m10

/-- `vecmath::mat2x3_inv_det` (reciprocal of the determinant). -/
def mat2x3_inv_det (m : Matrix2d) : Scalar := 1 / mat2x3_det m

/-- `vecmath::mat2x3_inv`. -/
def mat2x3_inv (m : Matrix2d) : Matrix2d :=
  let inv_det := mat2x3_inv_det m
  { m00 := m.m11 * inv_det
    m01 := -m.m01 * inv_det
    m02 := (m.m01 * m.m12 - m.m11 * m.m02) * inv_det
    m10 := -m.m10 * inv_det
    m11 := m.m00 * inv_det
    m12 := (m.m10 * m.m02 - m.m00 * m.m12) * inv_det }

/-- `vecmath::row_mat2x3_transform_pos2`. -/
def transform_pos (m : Matrix2d) (p : Vec2d) : Vec2d :=
  { x := m.m00 * p.x + m.m01 * p.y + m.m02
    y := m.m10 * p.x + m.m11 * p.y + m.m12 }

/-- `math.rs::inside_pos`: maps a pointer position through the inverse transform. -/
def inside_pos (outside_pos : Vec2d) (transform : Matrix2d) : Vec2d :=
  transform_pos (mat2x3_inv transform) outside_pos

/-- Mouse buttons (only `Left` is ever matched by the library). -/
inductive MouseButton where
  | Left
  | Right
  | Middle
  | Unknown
deriving DecidableEq

/-- Input buttons (`input::Button`); only the `Mouse` variant is ever matched. -/
inductive Button where
  | Keyboard
  | Mouse (button : MouseButton)
deriving DecidableEq

/-- The projection of a piston `GenericEvent` onto the three accessors the library
reads: `mouse_cursor_args`, `press_args` and `release_args`. -/
structure Event where
  mouse_cursor : Option Vec2d
  press : Option Button
  release : Option Button
deriving DecidableEq

/-- `SplitOrientation`: which edge of the parent panel a split anchors to. -/
inductive SplitOrientation where
  | Left
  | Right
  | Top
  | Bottom
deriving DecidableEq, Fintype

/-- `SplitState`: the state of a split, derived from the hover/drag flags. -/
inductive SplitState where
  | Inactive
  | Hover
  | Drag
  | DragNotFollowing
deriving DecidableEq

/-- `SplitLayout`: start/end insets of a split along its cross axis. -/
structure SplitLayout where
  start : Scalar
  end_ : Scalar
deriving DecidableEq

/-- `SplitLayoutPurpose`: drawing vs event handling. -/
inductive SplitLayoutPurpose where
  | Draw
  | Event
deriving DecidableEq

/-- `SplitLayoutPurpose::sign`. -/
def SplitLayoutPurpose.sign : SplitLayoutPurpose → Scalar
  | .Draw => 1
  | .Event => 0

/-- `SplitController`: state of one UI split. -/
structure SplitController where
  mouse_hover : Bool
  dragging : Bool
  value : Scalar
  min_value : Scalar
  border : Scalar
  orientation : SplitOrientation
deriving DecidableEq

/-- `SplitController::new`. -/
def SplitController.new (value min_value border : Scalar)
    (orientation : SplitOrientation) : SplitController :=
  { mouse_hover := false
    dragging := false
    value := value
    min_value := min_value
    border := border
    orientation := orientation }

/-- `SplitController::is_dragging`. -/
def SplitController.is_dragging (s : SplitController) : Bool := s.dragging

/-- `SplitController::line_rect`: the split line rectangle inside a parent rectangle. -/
def SplitController.line_rect (s : SplitController) (layout : SplitLayout)
    (rect : Rectangle) : Rectangle :=
  match s.orientation with
  | .Left =>
    { x := rect.x + s.value, y := rect.y + layout.start
      w := s.border, h := rect.h - layout.start - layout.end_ }
  | .Right =>
    { x := rect.x + rect.w - s.value - s.border, y := rect.y + layout.start
      w := s.border, h := rect.h - layout.start - layout.end_ }
  | .Top =>
    { x := rect.x + layout.start, y := rect.y + s.value
      w := rect.w - layout.start - layout.end_, h := s.border }
  | .Bottom =>
    { x := rect.x + layout.start, y := rect.y + rect.h - s.value - s.border
      w := rect.w - layout.start - layout.end_, h := s.border }

/-- `SplitController::state`. -/
def SplitController.state (s : SplitController) : SplitState :=
  match s.mouse_hover, s.dragging with
  | false, false => .Inactive
  | true, false => .Hover
  | true, true => .Drag
  | false, true => .DragNotFollowing

/-- The un-clamped drag offset computed from the (local) pointer position in
`SplitController::event`, by orientation. -/
def SplitController.rawOffset (s : SplitController) (rect : Rectangle)
    (pos : Vec2d) : Scalar :=
  match s.orientation with
  | .Left => pos.x - rect.x - (1/2) * s.border
  | .Right => rect.w - pos.x + rect.x - (1/2) * s.border
  | .Top => pos.y - rect.y - (1/2) * s.border
  | .Bottom => rect.y + rect.h - pos.y - (1/2) * s.border

/-- The `mouse_cursor_args` block of `SplitController::event`: while dragging,
clamp the raw offset with `.max(min_value).min(max_value)`; always recompute
`mouse_hover` against the (possibly moved) line rectangle. -/
def SplitController.cursorEvent (s : SplitController) (layout : SplitLayout)
    (max_value : Scalar) (rect : Rectangle) (transform : Matrix2d) :
    Option Vec2d → SplitController
  | none => s
  | some pos =>
    let pos := inside_pos pos transform
    let s' :=
      if s.dragging then
        { s with value := min (max (s.rawOffset rect pos) s.min_value) max_value }
      else s
    { s' with mouse_hover := is_inside pos (s'.line_rect layout rect) }

/-- The `press_args` block of `SplitController::event`: a left-button press starts
dragging when hovering. -/
def SplitController.pressEvent (s : SplitController) : Option Button → SplitController
  | some (Button.Mouse MouseButton.Left) =>
    if s.mouse_hover then { s with dragging := true } else s
  | _ => s

/-- The `release_args` block of `SplitController::event`: a left-button release
stops dragging unconditionally. -/
def SplitController.releaseEvent (s : SplitController) : Option Button → SplitController
  | some (Button.Mouse MouseButton.Left) => { s with dragging := false }
  | _ => s

/-- `SplitController::event`.  The three `if let` blocks of the source run in
source order: cursor move, then left-button press, then left-button release. -/
def SplitController.event (s : SplitController) (layout : SplitLayout)
    (max_value : Scalar) (rect : Rectangle) (transform : Matrix2d)
    (e : Event) : SplitController :=
  (((s.cursorEvent layout max_value rect transform e.mouse_cursor).pressEvent
    e.press).releaseEvent e.release)

/-- Bit flag for the left split (`LEFT` in `lib.rs`). -/
def LEFT : Nat := 0x1
/-- Bit flag for the right split (`RIGHT` in `lib.rs`). -/
def RIGHT : Nat := 0x2
/-- Bit flag for the top split (`TOP` in `lib.rs`). -/
def TOP : Nat := 0x4
/-- Bit flag for the bottom split (`BOTTOM` in `lib.rs`). -/
def BOTTOM : Nat := 0x8

/-- `SplitLayoutSettings`. -/
structure SplitLayoutSettings where
  border : Scalar
  center_min_size : Vec2d
  left_value : Scalar
  left_min_value : Scalar
  right_value : Scalar
  right_min_value : Scalar
  top_value : Scalar
  top_min_value : Scalar
  bottom_value : Scalar
  bottom_min_value : Scalar
  lock_left : Bool
  lock_right : Bool
  lock_top : Bool
  lock_bottom : Bool
deriving DecidableEq

/-- `SplitLayoutSettings::new`: all values set to `min_value`, work area 1x1. -/
def SplitLayoutSettings.new (border min_value : Scalar) : SplitLayoutSettings :=
  { border := border
    center_min_size := ⟨1, 1⟩
    left_value := min_value
    left_min_value := min_value
    right_value := min_value
    right_min_value := min_value
    top_value := min_value
    top_min_value := min_value
    bottom_value := min_value
    bottom_min_value := min_value
    lock_left := false
    lock_right := false
    lock_top := false
    lock_bottom := false }

/-- `SplitLayoutController`. -/
structure SplitLayoutController where
  left : SplitController
  right : SplitController
  top : SplitController
  bottom : SplitController
  center_min_size : Vec2d
  drag_splits : Nat
  lock_splits : Nat
deriving DecidableEq

/-- `SplitLayoutController::new`. -/
def SplitLayoutController.new (settings : SplitLayoutSettings) : SplitLayoutController :=
  { left := SplitController.new settings.left_value settings.left_min_value
      settings.border .Left
    right := SplitController.new settings.right_value settings.right_min_value
      settings.border .Right
    top := SplitController.new settings.top_value settings.top_min_value
      settings.border .Top
    bottom := SplitController.new settings.bottom_value settings.bottom_min_value
      settings.border .Bottom
    center_min_size := settings.center_min_size
    drag_splits := 0
    lock_splits :=
      (if settings.lock_left then LEFT else 0) |||
      (if settings.lock_right then RIGHT else 0) |||
      (if settings.lock_top then TOP else 0) |||
      (if settings.lock_bottom then BOTTOM else 0) }

/-- `SplitLayoutController::min_size`: minimum size computed from current values. -/
def SplitLayoutController.min_size (c : SplitLayoutController) : Vec2d :=
  { x := c.left.value + c.left.border + c.right.value + c.right.border +
      c.center_min_size.x
    y := c.top.value + c.top.border + c.bottom.value + c.bottom.border +
      c.center_min_size.y }

/-- `SplitLayoutController::bounds`: window bounds floored to `min_size`. -/
def SplitLayoutController.bounds (c : SplitLayoutController) (rect : Rectangle) :
    Rectangle :=
  let min_size := c.min_size
  { x := rect.x, y := rect.y, w := max rect.w min_size.x, h := max rect.h min_size.y }

/-- `SplitLayoutController::left_right_layout`. -/
def SplitLayoutController.left_right_layout (c : SplitLayoutController)
    (purpose : SplitLayoutPurpose) : SplitLayout :=
  let sign := purpose.sign
  { start := c.top.value + sign * c.top.border
    end_ := c.bottom.value + sign * c.bottom.border }

/-- `SplitLayoutController::top_bottom_layout`. -/
def SplitLayoutController.top_bottom_layout (_ : SplitLayoutController) : SplitLayout :=
  { start := 0, end_ := 0 }

/-- The drag bitmask recomputed at the end of `SplitLayoutController::event`. -/
def SplitLayoutController.dragMask (c : SplitLayoutController) : Nat :=
  (if c.top.is_dragging then TOP else 0) |||
  (if c.bottom.is_dragging then BOTTOM else 0) |||
  (if c.left.is_dragging then LEFT else 0) |||
  (if c.right.is_dragging then RIGHT else 0)

/-- The top-split branch of `SplitLayoutController::event` (lines 179-186). -/
def SplitLayoutController.eventTop (c : SplitLayoutController) (bounds : Rectangle)
    (transform : Matrix2d) (e : Event) : SplitLayoutController :=
  if c.lock_splits &&& TOP ≠ TOP ∧ (c.drag_splits = 0 ∨ c.drag_splits &&& TOP = TOP) then
    let max_value :=
      bounds.h - c.bottom.value - c.center_min_size.y - c.top.border - c.bottom.border
    { c with top := c.top.event c.top_bottom_layout max_value bounds transform e }
  else c

/-- The bottom-split branch of `SplitLayoutController::event` (lines 187-194). -/
def SplitLayoutController.eventBottom (c : SplitLayoutController) (bounds : Rectangle)
    (transform : Matrix2d) (e : Event) : SplitLayoutController :=
  if c.lock_splits &&& BOTTOM ≠ BOTTOM ∧
      (c.drag_splits = 0 ∨ c.drag_splits &&& BOTTOM = BOTTOM) then
    let max_value :=
      bounds.h - c.top.value - c.center_min_size.y - c.bottom.border - c.top.border
    { c with bottom := c.bottom.event c.top_bottom_layout max_value bounds transform e }
  else c

/-- The left-split branch of `SplitLayoutController::event` (lines 195-202). -/
def SplitLayoutController.eventLeft (c : SplitLayoutController) (bounds : Rectangle)
    (transform : Matrix2d) (e : Event) : SplitLayoutController :=
  if c.lock_splits &&& LEFT ≠ LEFT ∧ (c.drag_splits = 0 ∨ c.drag_splits &&& LEFT = LEFT) then
    let max_value :=
      bounds.w - c.right.value - c.center_min_size.x - c.left.border - c.right.border
    { c with left := c.left.event (c.left_right_layout .Event) max_value bounds transform e }
  else c

/-- The right-split branch of `SplitLayoutController::event` (lines 203-210). -/
def SplitLayoutController.eventRight (c : SplitLayoutController) (bounds : Rectangle)
    (transform : Matrix2d) (e : Event) : SplitLayoutController :=
  if c.lock_splits &&& RIGHT ≠ RIGHT ∧
      (c.drag_splits = 0 ∨ c.drag_splits &&& RIGHT = RIGHT) then
    let max_value :=
      bounds.w - c.left.value - c.center_min_size.x - c.right.border - c.left.border
    { c with right := c.right.event (c.left_right_layout .Event) max_value bounds transform e }
  else c

/-- `SplitLayoutController::event`: the four edge branches in source order (top,
bottom, left, right), then the drag bitmask is recomputed from the controllers. -/
def SplitLayoutController.event (c : SplitLayoutController) (rect : Rectangle)
    (transform : Matrix2d) (e : Event) : SplitLayoutController :=
  let bounds := c.bounds rect
  let c1 := c.eventTop bounds transform e
  let c2 := c1.eventBottom bounds transform e
  let c3 := c2.eventLeft bounds transform e
  let c4 := c3.eventRight bounds transform e
  { c4 with drag_splits := c4.dragMask }

/-- `SplitLayoutController::states`. -/
def SplitLayoutController.states (c : SplitLayoutController) :
    SplitState × SplitState × SplitState × SplitState :=
  (c.left.state, c.right.state, c.top.state, c.bottom.state)

/-- The split controller selected by an edge. -/
def SplitLayoutController.get (c : SplitLayoutController) :
    SplitOrientation → SplitController
  | .Left => c.left
  | .Right => c.right
  | .Top => c.top
  | .Bottom => c.bottom

/-- The bit flag of an edge. -/
def SplitOrientation.bit : SplitOrientation → Nat
  | .Left => LEFT
  | .Right => RIGHT
  | .Top => TOP
  | .Bottom => BOTTOM

/-- The lock flag of an edge in the settings. -/
def SplitLayoutSettings.lockFlag (s : SplitLayoutSettings) : SplitOrientation → Bool
  | .Left => s.lock_left
  | .Right => s.lock_right
  | .Top => s.lock_top
  | .Bottom => s.lock_bottom

/-- Runs a sequence of `event` calls (each with its own rect, transform and event). -/
def SplitLayoutController.run (c : SplitLayoutController) :
    List (Rectangle × Matrix2d × Event) → SplitLayoutController
  | [] => c
  | step :: rest => (c.event step.1 step.2.1 step.2.2).run rest

/-- States of a `SplitLayoutController` reachable from some construction by `event` calls. -/
inductive Reachable : SplitLayoutController → Prop where
  | base (settings : SplitLayoutSettings) : Reachable (SplitLayoutController.new settings)
  | step {c : SplitLayoutController} (rect : Rectangle) (transform : Matrix2d)
      (e : Event) : Reachable c → Reachable (c.event rect transform e)

/-! Concrete inputs used by the closed instances below. -/

/-- The identity transform. -/
def idT : Matrix2d := ⟨1, 0, 0, 0, 1, 0⟩

/-- A pointer-move event. -/
def moveEvent (p : Vec2d) : Event := ⟨some p, none, none⟩

/-- A left-button press event. -/
def pressLeft : Event := ⟨none, some (Button.Mouse MouseButton.Left), none⟩

/-- A left-button release event. -/
def releaseLeft : Event := ⟨none, none, some (Button.Mouse MouseButton.Left)⟩

/-- A dragging split controller whose `min_value` (5) exceeds the `max_value` (0)
passed to the concrete `event` calls below. -/
def cexSplit : SplitController := ⟨false, true, 0, 5, 0, .Left⟩

/-- Parent rectangle for the concrete `SplitController.event` calls. -/
def cexRect : Rectangle := ⟨0, 0, 10, 10⟩

/-- The pointer-move event used in the concrete `SplitController.event` calls. -/
def cexMove : Event := moveEvent ⟨0, 0⟩

/-- Settings of the concrete layout scenario: border 2, all values and minimum
values 50, center minimum size 1x1. -/
def settingsW : SplitLayoutSettings := SplitLayoutSettings.new 2 50

/-- Window rectangle of the concrete layout scenario. -/
def rectW : Rectangle := ⟨0, 0, 200, 200⟩

/-- The freshly constructed controller of the concrete layout scenario. -/
def baseState : SplitLayoutController := SplitLayoutController.new settingsW

/-- The concrete layout scenario after a pointer move onto the left split line
(position (51, 100)) followed by a left-button press: the left split is dragging
and no other split is. -/
def dragState : SplitLayoutController :=
  (baseState.event rectW idT (moveEvent ⟨51, 100⟩)).event rectW idT pressLeft

/-- Settings with the left split locked. -/
def lockedSettings : SplitLayoutSettings :=
  { SplitLayoutSettings.new 2 50 with lock_left := true }

/-- Settings of the minimum-size scenario: border 2, all values and minimum
values 50, center minimum size 10x10. -/
def s5 : SplitLayoutSettings :=
  { SplitLayoutSettings.new 2 50 with center_min_size := ⟨10, 10⟩ }

/-! ## Lemmas about `SplitController.event` -/

theorem SplitController.pressEvent_value (s : SplitController) (p : Option Button) :
    (s.pressEvent p).value = s.value := by
  unfold SplitController.pressEvent
  split
  · split <;> rfl
  · rfl

theorem SplitController.releaseEvent_value (s : SplitController) (p : Option Button) :
    (s.releaseEvent p).value = s.value := by
  unfold SplitController.releaseEvent
  split <;> rfl

theorem SplitController.cursorEvent_value_some (s : SplitController)
    (layout : SplitLayout) (max_value : Scalar) (rect : Rectangle)
    (transform : Matrix2d) (pos : Vec2d) (hd : s.dragging = true) :
    (s.cursorEvent layout max_value rect transform (some pos)).value =
      min (max (s.rawOffset rect (inside_pos pos transform)) s.min_value) max_value := by
  simp [SplitController.cursorEvent, hd]

/-- The value written by `SplitController::event` on a pointer-move event while
dragging is the raw offset clamped with `.max(min_value).min(max_value)`. -/
theorem SplitController.event_value_move (s : SplitController) (layout : SplitLayout)
    (max_value : Scalar) (rect : Rectangle) (transform : Matrix2d) (pos : Vec2d)
    (pr rl : Option Button) (hd : s.dragging = true) :
    (s.event layout max_value rect transform ⟨some pos, pr, rl⟩).value =
      min (max (s.rawOffset rect (inside_pos pos transform)) s.min_value) max_value := by
  unfold SplitController.event
  rw [SplitController.releaseEvent_value, SplitController.pressEvent_value,
    SplitController.cursorEvent_value_some s layout max_value rect transform pos hd]

/-! ## C2: clamping -/

unseal Rat.add Rat.mul Rat.sub Rat.inv in
/-- C2, counterexample: a dragging controller with `min_value = 5` processing a
pointer-move with `max_value = 0` ends with `value = 0 < min_value`, so the
claimed `min_value ≤ value ≤ max_value` fails as stated. -/
theorem C2_counterexample :
    cexSplit.dragging = true ∧
    ¬((cexSplit.event ⟨0, 0⟩ 0 cexRect idT cexMove).min_value ≤
        (cexSplit.event ⟨0, 0⟩ 0 cexRect idT cexMove).value ∧
      (cexSplit.event ⟨0, 0⟩ 0 cexRect idT cexMove).value ≤ 0) := by decide

/-- C2 (amended): for every dragging `SplitController` processing a pointer-move
event, the resulting `value` never exceeds `max_value`, and it stays at or above
`min_value` provided `min_value ≤ max_value` (for all four orientations and all
pointer positions, rects, and transforms). -/
theorem C2_clamping (s : SplitController) (layout : SplitLayout) (max_value : Scalar)
    (rect : Rectangle) (transform : Matrix2d) (pos : Vec2d) (pr rl : Option Button)
    (hd : s.dragging = true) :
    (s.event layout max_value rect transform ⟨some pos, pr, rl⟩).value ≤ max_value ∧
    (s.min_value ≤ max_value →
      s.min_value ≤ (s.event layout max_value rect transform ⟨some pos, pr, rl⟩).value) := by
  rw [SplitController.event_value_move s layout max_value rect transform pos pr rl hd]
  exact ⟨min_le_right _ _, fun h => le_min (le_max_right _ _) h⟩

unseal Rat.add Rat.mul Rat.sub Rat.inv in
/-- Witness for C2 at a concrete input (`max_value = 10`). -/
theorem C2_witness :
    (cexSplit.event ⟨0, 0⟩ 10 cexRect idT cexMove).value ≤ 10 ∧
    (cexSplit.min_value ≤ 10 →
      cexSplit.min_value ≤ (cexSplit.event ⟨0, 0⟩ 10 cexRect idT cexMove).value) :=
  C2_clamping cexSplit ⟨0, 0⟩ 10 cexRect idT ⟨0, 0⟩ none none (by decide)

/-! ## C3: clamp ordering when `min_value > max_value` -/

/-- C3: for every dragging `SplitController` with `min_value > max_value`, any
pointer-move event leaves `value = max_value` (because `.max(min_value)` is
applied before `.min(max_value)`), for every orientation and pointer position. -/
theorem C3_clamp_ordering (s : SplitController) (layout : SplitLayout)
    (max_value : Scalar) (rect : Rectangle) (transform : Matrix2d) (pos : Vec2d)
    (pr rl : Option Button) (hd : s.dragging = true)
    (hlt : s.min_value > max_value) :
    (s.event layout max_value rect transform ⟨some pos, pr, rl⟩).value = max_value := by
  rw [SplitController.event_value_move s layout max_value rect transform pos pr rl hd]
  exact min_eq_right (le_trans hlt.le (le_max_right _ _))

unseal Rat.add Rat.mul Rat.sub Rat.inv in
/-- Witness for C3 at a concrete input (`min_value = 5 > 0 = max_value`). -/
theorem C3_witness :
    cexSplit.dragging = true ∧ cexSplit.min_value > (0 : Scalar) ∧
    (cexSplit.event ⟨0, 0⟩ 0 cexRect idT cexMove).value = 0 :=
  ⟨by decide, by decide,
    C3_clamp_ordering cexSplit ⟨0, 0⟩ 0 cexRect idT ⟨0, 0⟩ none none (by decide) (by decide)⟩

/-! ## C5: minimum-size scenario -/

unseal Rat.add Rat.mul Rat.sub Rat.inv in
/-- C5, counterexample: with border 2, all values 50 and center minimum size
10x10, `min_size` does not return `[104, 104]`. -/
theorem C5_counterexample :
    ¬((SplitLayoutController.new s5).min_size = ⟨104, 104⟩) := by decide

unseal Rat.add Rat.mul Rat.sub Rat.inv in
/-- C5 (amended): with border 2, all values 50 and center minimum size 10x10,
`min_size` returns `[114, 114]` (`50 + 2 + 50 + 2 + 10` per axis). -/
theorem C5_min_size_scenario :
    (SplitLayoutController.new s5).min_size = ⟨114, 114⟩ := by decide

/-! ## C6: the `min_size` formula -/

/-- C6: for every state, `min_size` is the sum of the current left/right (resp.
top/bottom) values and borders plus the center minimum size, using the current
values rather than the minimum values. -/
theorem C6_min_size_formula (c : SplitLayoutController) :
    c.min_size =
      ⟨c.left.value + c.left.border + c.right.value + c.right.border +
        c.center_min_size.x,
       c.top.value + c.top.border + c.bottom.value + c.bottom.border +
        c.center_min_size.y⟩ := rfl

/-! ## C7: `bounds` floors the window rectangle to `min_size` -/

/-- C7: `bounds(rect)` keeps the position of `rect` and floors its width and
height to `min_size` component-wise; hence the result is never smaller than
`min_size`. -/
theorem C7_bounds_floor (c : SplitLayoutController) (rect : Rectangle) :
    c.bounds rect =
      ⟨rect.x, rect.y, max rect.w c.min_size.x, max rect.h c.min_size.y⟩ ∧
    c.min_size.x ≤ (c.bounds rect).w ∧ c.min_size.y ≤ (c.bounds rect).h ∧
    (c.bounds rect).x = rect.x ∧ (c.bounds rect).y = rect.y :=
  ⟨rfl, le_max_right _ _, le_max_right _ _, rfl, rfl⟩

/-! ## C8: `state` is a pure function of the two flags -/

/-- C8: `state()` maps `(hover, dragging)` to `Inactive`, `Hover`, `Drag`,
`DragNotFollowing` exactly as in the table, and depends on nothing but those two
flags. -/
theorem C8_state_derivation :
    (∀ s : SplitController,
      s.state =
        if s.mouse_hover then (if s.dragging then .Drag else .Hover)
        else (if s.dragging then .DragNotFollowing else .Inactive)) ∧
    (∀ s₁ s₂ : SplitController,
      SplitController.state
        { s₂ with mouse_hover := s₁.mouse_hover, dragging := s₁.dragging } = s₁.state) := by
  constructor
  · intro s
    cases hm : s.mouse_hover <;> cases hd : s.dragging <;>
      simp [SplitController.state, hm, hd]
  · intro s₁ s₂
    cases hm : s₁.mouse_hover <;> cases hd : s₁.dragging <;>
      simp [SplitController.state, hm, hd]

/-! ## C9: the Draw/Event purpose of the left/right layout window -/

unseal Rat.add Rat.mul Rat.sub Rat.inv in
/-- C9, counterexample: on a freshly constructed controller with top and bottom
values 50, the Event-purpose layout window has `start = 50`, not `start = 0`:
the window does not collapse to zero. -/
theorem C9_counterexample :
    ¬((baseState.left_right_layout .Event).start = 0 ∧
      (baseState.left_right_layout .Event).end_ = 0) := by decide

/-- C9 (amended): for every state, the Event-purpose left/right layout window is
inset by exactly the top/bottom values (`start = top.value`, `end =
bottom.value`), omitting only the border terms, while the Draw-purpose window is
additionally inset by the borders (`start = top.value + top.border`, `end =
bottom.value + bottom.border`). -/
theorem C9_layout_purpose (c : SplitLayoutController) :
    c.left_right_layout .Event = ⟨c.top.value, c.bottom.value⟩ ∧
    c.left_right_layout .Draw =
      ⟨c.top.value + c.top.border, c.bottom.value + c.bottom.border⟩ := by
  constructor <;>
    simp [SplitLayoutController.left_right_layout, SplitLayoutPurpose.sign]

/-! ## Lemmas about the four edge branches of `SplitLayoutController.event` -/

theorem eventTop_left (c : SplitLayoutController) (b : Rectangle) (t : Matrix2d)
    (e : Event) : (c.eventTop b t e).left = c.left := by
  unfold SplitLayoutController.eventTop; split <;> rfl

theorem eventTop_right (c : SplitLayoutController) (b : Rectangle) (t : Matrix2d)
    (e : Event) : (c.eventTop b t e).right = c.right := by
  unfold SplitLayoutController.eventTop; split <;> rfl

theorem eventTop_bottom (c : SplitLayoutController) (b : Rectangle) (t : Matrix2d)
    (e : Event) : (c.eventTop b t e).bottom = c.bottom := by
  unfold SplitLayoutController.eventTop; split <;> rfl

theorem eventTop_drag_splits (c : SplitLayoutController) (b : Rectangle)
    (t : Matrix2d) (e : Event) : (c.eventTop b t e).drag_splits = c.drag_splits := by
  unfold SplitLayoutController.eventTop; split <;> rfl

theorem eventTop_lock_splits (c : SplitLayoutController) (b : Rectangle)
    (t : Matrix2d) (e : Event) : (c.eventTop b t e).lock_splits = c.lock_splits := by
  unfold SplitLayoutController.eventTop; split <;> rfl

theorem eventBottom_left (c : SplitLayoutController) (b : Rectangle) (t : Matrix2d)
    (e : Event) : (c.eventBottom b t e).left = c.left := by
  unfold SplitLayoutController.eventBottom; split <;> rfl

theorem eventBottom_right (c : SplitLayoutController) (b : Rectangle) (t : Matrix2d)
    (e : Event) : (c.eventBottom b t e).right = c.right := by
  unfold SplitLayoutController.eventBottom; split <;> rfl

theorem eventBottom_top (c : SplitLayoutController) (b : Rectangle) (t : Matrix2d)
    (e : Event) : (c.eventBottom b t e).top = c.top := by
  unfold SplitLayoutController.eventBottom; split <;> rfl

theorem eventBottom_drag_splits (c : SplitLayoutController) (b : Rectangle)
    (t : Matrix2d) (e : Event) : (c.eventBottom b t e).drag_splits = c.drag_splits := by
  unfold SplitLayoutController.eventBottom; split <;> rfl

theorem eventBottom_lock_splits (c : SplitLayoutController) (b : Rectangle)
    (t : Matrix2d) (e : Event) : (c.eventBottom b t e).lock_splits = c.lock_splits := by
  unfold SplitLayoutController.eventBottom; split <;> rfl

theorem eventLeft_right (c : SplitLayoutController) (b : Rectangle) (t : Matrix2d)
    (e : Event) : (c.eventLeft b t e).right = c.right := by
  unfold SplitLayoutController.eventLeft; split <;> rfl

theorem eventLeft_top (c : SplitLayoutController) (b : Rectangle) (t : Matrix2d)
    (e : Event) : (c.eventLeft b t e).top = c.top := by
  unfold SplitLayoutController.eventLeft; split <;> rfl

theorem eventLeft_bottom (c : SplitLayoutController) (b : Rectangle) (t : Matrix2d)
    (e : Event) : (c.eventLeft b t e).bottom = c.bottom := by
  unfold SplitLayoutController.eventLeft; split <;> rfl

theorem eventLeft_drag_splits (c : SplitLayoutController) (b : Rectangle)
    (t : Matrix2d) (e : Event) : (c.eventLeft b t e).drag_splits = c.drag_splits := by
  unfold SplitLayoutController.eventLeft; split <;> rfl

theorem eventLeft_lock_splits (c : SplitLayoutController) (b : Rectangle)
    (t : Matrix2d) (e : Event) : (c.eventLeft b t e).lock_splits = c.lock_splits := by
  unfold SplitLayoutController.eventLeft; split <;> rfl

theorem eventRight_left (c : SplitLayoutController) (b : Rectangle) (t : Matrix2d)
    (e : Event) : (c.eventRight b t e).left = c.left := by
  unfold SplitLayoutController.eventRight; split <;> rfl

theorem eventRight_top (c : SplitLayoutController) (b : Rectangle) (t : Matrix2d)
    (e : Event) : (c.eventRight b t e).top = c.top := by
  unfold SplitLayoutController.eventRight; split <;> rfl

theorem eventRight_bottom (c : SplitLayoutController) (b : Rectangle) (t : Matrix2d)
    (e : Event) : (c.eventRight b t e).bottom = c.bottom := by
  unfold SplitLayoutController.eventRight; split <;> rfl

theorem eventRight_drag_splits (c : SplitLayoutController) (b : Rectangle)
    (t : Matrix2d) (e : Event) : (c.eventRight b t e).drag_splits = c.drag_splits := by
  unfold SplitLayoutController.eventRight; split <;> rfl

theorem eventRight_lock_splits (c : SplitLayoutController) (b : Rectangle)
    (t : Matrix2d) (e : Event) : (c.eventRight b t e).lock_splits = c.lock_splits := by
  unfold SplitLayoutController.eventRight; split <;> rfl

theorem eventTop_of_lock (c : SplitLayoutController) (b : Rectangle) (t : Matrix2d)
    (e : Event) (h : c.lock_splits &&& TOP = TOP) : c.eventTop b t e = c := by
  unfold SplitLayoutController.eventTop; exact if_neg fun hc => hc.1 h

theorem eventBottom_of_lock (c : SplitLayoutController) (b : Rectangle) (t : Matrix2d)
    (e : Event) (h : c.lock_splits &&& BOTTOM = BOTTOM) : c.eventBottom b t e = c := by
  unfold SplitLayoutController.eventBottom; exact if_neg fun hc => hc.1 h

theorem eventLeft_of_lock (c : SplitLayoutController) (b : Rectangle) (t : Matrix2d)
    (e : Event) (h : c.lock_splits &&& LEFT = LEFT) : c.eventLeft b t e = c := by
  unfold SplitLayoutController.eventLeft; exact if_neg fun hc => hc.1 h

theorem eventRight_of_lock (c : SplitLayoutController) (b : Rectangle) (t : Matrix2d)
    (e : Event) (h : c.lock_splits &&& RIGHT = RIGHT) : c.eventRight b t e = c := by
  unfold SplitLayoutController.eventRight; exact if_neg fun hc => hc.1 h

theorem eventTop_of_drag (c : SplitLayoutController) (b : Rectangle) (t : Matrix2d)
    (e : Event) (h0 : c.drag_splits ≠ 0) (h : c.drag_splits &&& TOP ≠ TOP) :
    c.eventTop b t e = c := by
  unfold SplitLayoutController.eventTop; exact if_neg fun hc => hc.2.elim h0 h

theorem eventBottom_of_drag (c : SplitLayoutController) (b : Rectangle) (t : Matrix2d)
    (e : Event) (h0 : c.drag_splits ≠ 0) (h : c.drag_splits &&& BOTTOM ≠ BOTTOM) :
    c.eventBottom b t e = c := by
  unfold SplitLayoutController.eventBottom; exact if_neg fun hc => hc.2.elim h0 h

theorem eventLeft_of_drag (c : SplitLayoutController) (b : Rectangle) (t : Matrix2d)
    (e : Event) (h0 : c.drag_splits ≠ 0) (h : c.drag_splits &&& LEFT ≠ LEFT) :
    c.eventLeft b t e = c := by
  unfold SplitLayoutController.eventLeft; exact if_neg fun hc => hc.2.elim h0 h

theorem eventRight_of_drag (c : SplitLayoutController) (b : Rectangle) (t : Matrix2d)
    (e : Event) (h0 : c.drag_splits ≠ 0) (h : c.drag_splits &&& RIGHT ≠ RIGHT) :
    c.eventRight b t e = c := by
  unfold SplitLayoutController.eventRight; exact if_neg fun hc => hc.2.elim h0 h

/-! ## Lemmas about `SplitLayoutController.event` as a whole -/

theorem event_lock_splits (c : SplitLayoutController) (rect : Rectangle)
    (t : Matrix2d) (e : Event) : (c.event rect t e).lock_splits = c.lock_splits := by
  simp only [SplitLayoutController.event, eventRight_lock_splits,
    eventLeft_lock_splits, eventBottom_lock_splits, eventTop_lock_splits]

theorem event_drag_splits_eq (c : SplitLayoutController) (rect : Rectangle)
    (t : Matrix2d) (e : Event) :
    (c.event rect t e).drag_splits = (c.event rect t e).dragMask := rfl

theorem bit_ne_zero (A : SplitOrientation) : A.bit ≠ 0 := by
  cases A <;> decide

theorem bit_and_bit_ne (A B : SplitOrientation) (h : B ≠ A) :
    A.bit &&& B.bit ≠ B.bit := by
  cases A <;> cases B <;> first | exact absurd rfl h | decide

theorem dragMask_bit (c : SplitLayoutController) (edge : SplitOrientation) :
    (c.dragMask &&& edge.bit = edge.bit) ↔ (c.get edge).dragging = true := by
  cases edge <;>
    cases hT : c.top.dragging <;> cases hB : c.bottom.dragging <;>
    cases hL : c.left.dragging <;> cases hR : c.right.dragging <;>
      simp [SplitLayoutController.dragMask, SplitLayoutController.get,
        SplitController.is_dragging, SplitOrientation.bit, hT, hB, hL, hR,
        LEFT, RIGHT, TOP, BOTTOM] <;> decide

/-- The drag bitmask of every reachable state agrees with the four dragging flags. -/
theorem reachable_drag_splits (c : SplitLayoutController) (h : Reachable c) :
    c.drag_splits = c.dragMask := by
  induction h with
  | base settings =>
    simp [SplitLayoutController.new, SplitLayoutController.dragMask,
      SplitController.new, SplitController.is_dragging]
  | step rect t e _ _ => exact event_drag_splits_eq _ rect t e

/-- With exactly one split dragging, the drag bitmask is that split's bit. -/
theorem dragMask_eq_bit (c : SplitLayoutController) (A : SplitOrientation)
    (hA : (c.get A).dragging = true)
    (hother : ∀ B, B ≠ A → (c.get B).dragging = false) :
    c.dragMask = A.bit := by
  cases A <;>
  · simp only [SplitLayoutController.get] at hA
    have h1 := hother .Left
    have h2 := hother .Right
    have h3 := hother .Top
    have h4 := hother .Bottom
    simp only [SplitLayoutController.get] at h1 h2 h3 h4
    simp [SplitLayoutController.dragMask, SplitController.is_dragging,
      SplitOrientation.bit, hA, h1, h2, h3, h4, LEFT, RIGHT, TOP, BOTTOM]

/-- An `event` call on a state whose drag bitmask is a single split's bit leaves
every other split controller untouched. -/
theorem event_get_of_drag_other (c : SplitLayoutController) (rect : Rectangle)
    (t : Matrix2d) (e : Event) (A B : SplitOrientation)
    (hmask : c.drag_splits = A.bit) (hne : B ≠ A) :
    (c.event rect t e).get B = c.get B := by
  have h0 : c.drag_splits ≠ 0 := by rw [hmask]; exact bit_ne_zero A
  have hbit : c.drag_splits &&& B.bit ≠ B.bit := by
    rw [hmask]; exact bit_and_bit_ne A B hne
  cases B with
  | Top =>
    show (c.event rect t e).top = c.top
    simp only [SplitLayoutController.event, eventRight_top, eventLeft_top,
      eventBottom_top]
    rw [eventTop_of_drag _ _ _ _ h0 hbit]
  | Bottom =>
    show (c.event rect t e).bottom = c.bottom
    simp only [SplitLayoutController.event, eventRight_bottom, eventLeft_bottom]
    rw [eventBottom_of_drag _ _ _ _ (by rw [eventTop_drag_splits]; exact h0)
      (by rw [eventTop_drag_splits]; exact hbit), eventTop_bottom]
  | Left =>
    show (c.event rect t e).left = c.left
    simp only [SplitLayoutController.event, eventRight_left]
    rw [eventLeft_of_drag _ _ _ _
        (by rw [eventBottom_drag_splits, eventTop_drag_splits]; exact h0)
        (by rw [eventBottom_drag_splits, eventTop_drag_splits]; exact hbit),
      eventBottom_left, eventTop_left]
  | Right =>
    show (c.event rect t e).right = c.right
    simp only [SplitLayoutController.event]
    rw [eventRight_of_drag _ _ _ _
        (by rw [eventLeft_drag_splits, eventBottom_drag_splits,
            eventTop_drag_splits]; exact h0)
        (by rw [eventLeft_drag_splits, eventBottom_drag_splits,
            eventTop_drag_splits]; exact hbit),
      eventLeft_right, eventBottom_right, eventTop_right]

/-- An `event` call never touches the controller of a locked split. -/
theorem event_get_of_lock (c : SplitLayoutController) (rect : Rectangle)
    (t : Matrix2d) (e : Event) (edge : SplitOrientation)
    (h : c.lock_splits &&& edge.bit = edge.bit) :
    (c.event rect t e).get edge = c.get edge := by
  cases edge with
  | Top =>
    show (c.event rect t e).top = c.top
    simp only [SplitLayoutController.event, eventRight_top, eventLeft_top,
      eventBottom_top]
    rw [eventTop_of_lock _ _ _ _ h]
  | Bottom =>
    show (c.event rect t e).bottom = c.bottom
    simp only [SplitLayoutController.event, eventRight_bottom, eventLeft_bottom]
    rw [eventBottom_of_lock _ _ _ _ (by rw [eventTop_lock_splits]; exact h),
      eventTop_bottom]
  | Left =>
    show (c.event rect t e).left = c.left
    simp only [SplitLayoutController.event, eventRight_left]
    rw [eventLeft_of_lock _ _ _ _
        (by rw [eventBottom_lock_splits, eventTop_lock_splits]; exact h),
      eventBottom_left, eventTop_left]
  | Right =>
    show (c.event rect t e).right = c.right
    simp only [SplitLayoutController.event]
    rw [eventRight_of_lock _ _ _ _
        (by rw [eventLeft_lock_splits, eventBottom_lock_splits,
            eventTop_lock_splits]; exact h),
      eventLeft_right, eventBottom_right, eventTop_right]

/-- A lock flag set in the settings sets the corresponding bit of `lock_splits`. -/
theorem new_lock_bit (settings : SplitLayoutSettings) (edge : SplitOrientation)
    (h : settings.lockFlag edge = true) :
    (SplitLayoutController.new settings).lock_splits &&& edge.bit = edge.bit := by
  cases edge <;> simp only [SplitLayoutSettings.lockFlag] at h <;>
    cases h1 : settings.lock_left <;> cases h2 : settings.lock_right <;>
    cases h3 : settings.lock_top <;> cases h4 : settings.lock_bottom <;>
      simp_all [SplitLayoutController.new, SplitOrientation.bit,
        LEFT, RIGHT, TOP, BOTTOM] <;> decide

/-- A sequence of `event` calls never touches the controller of a locked split. -/
theorem run_get_of_lock (edge : SplitOrientation) :
    ∀ (steps : List (Rectangle × Matrix2d × Event)) (c : SplitLayoutController),
      c.lock_splits &&& edge.bit = edge.bit → (c.run steps).get edge = c.get edge
  | [], _, _ => rfl
  | step :: rest, c, h => by
    have h' : (c.event step.1 step.2.1 step.2.2).lock_splits &&& edge.bit =
        edge.bit := by
      rw [event_lock_splits]; exact h
    calc ((c.event step.1 step.2.1 step.2.2).run rest).get edge
        = (c.event step.1 step.2.1 step.2.2).get edge :=
          run_get_of_lock edge rest _ h'
      _ = c.get edge := event_get_of_lock c step.1 step.2.1 step.2.2 edge h

/-! ## C1: drag exclusivity -/

/-- C1: in every reachable state in which exactly one split `A` is dragging, an
`event` call (with any rect, transform and event) leaves the `hover` and
`dragging` flags of every other split unchanged; in particular this holds for
every call until the one that clears the dragging flag of `A`. -/
theorem C1_drag_exclusivity (c : SplitLayoutController) (hreach : Reachable c)
    (A : SplitOrientation) (hA : (c.get A).dragging = true)
    (hother : ∀ B, B ≠ A → (c.get B).dragging = false)
    (rect : Rectangle) (transform : Matrix2d) (e : Event)
    (B : SplitOrientation) (hne : B ≠ A) :
    ((c.event rect transform e).get B).mouse_hover = (c.get B).mouse_hover ∧
    ((c.event rect transform e).get B).dragging = (c.get B).dragging := by
  have hmask : c.drag_splits = A.bit :=
    (reachable_drag_splits c hreach).trans (dragMask_eq_bit c A hA hother)
  rw [event_get_of_drag_other c rect transform e A B hmask hne]
  exact ⟨rfl, rfl⟩

unseal Rat.add Rat.mul Rat.sub Rat.inv in
/-- Witness for C1: in the concrete scenario where only the left split is
dragging, a further pointer-move leaves the top split's flags unchanged. -/
theorem C1_witness :
    ((dragState.event rectW idT (moveEvent ⟨10, 100⟩)).get .Top).mouse_hover =
      (dragState.get .Top).mouse_hover ∧
    ((dragState.event rectW idT (moveEvent ⟨10, 100⟩)).get .Top).dragging =
      (dragState.get .Top).dragging :=
  C1_drag_exclusivity dragState
    (Reachable.step rectW idT pressLeft
      (Reachable.step rectW idT (moveEvent ⟨51, 100⟩) (Reachable.base settingsW)))
    .Left (by decide) (by decide) rectW idT (moveEvent ⟨10, 100⟩) .Top (by decide)

/-! ## C4: lock enforcement -/

/-- C4: a layout controller constructed with an edge's lock flag set keeps that
edge's `value`, `hover` and `dragging` fields at their construction-time values
across every sequence of `event` calls, whatever their rects, transforms and
events. -/
theorem C4_lock_enforcement (settings : SplitLayoutSettings)
    (edge : SplitOrientation) (h : settings.lockFlag edge = true)
    (steps : List (Rectangle × Matrix2d × Event)) :
    ((((SplitLayoutController.new settings).run steps).get edge)).value =
      (((SplitLayoutController.new settings).get edge)).value ∧
    ((((SplitLayoutController.new settings).run steps).get edge)).mouse_hover =
      (((SplitLayoutController.new settings).get edge)).mouse_hover ∧
    ((((SplitLayoutController.new settings).run steps).get edge)).dragging =
      (((SplitLayoutController.new settings).get edge)).dragging := by
  rw [run_get_of_lock edge steps _ (new_lock_bit settings edge h)]
  exact ⟨rfl, rfl, rfl⟩

unseal Rat.add Rat.mul Rat.sub Rat.inv in
/-- Witness for C4: with the left split locked, a pointer move onto the left
split line followed by a press leaves the left controller unchanged. -/
theorem C4_witness :
    ((((SplitLayoutController.new lockedSettings).run
        [(rectW, idT, moveEvent ⟨51, 100⟩), (rectW, idT, pressLeft)]).get
      .Left)).value =
      (((SplitLayoutController.new lockedSettings).get .Left)).value ∧
    ((((SplitLayoutController.new lockedSettings).run
        [(rectW, idT, moveEvent ⟨51, 100⟩), (rectW, idT, pressLeft)]).get
      .Left)).mouse_hover =
      (((SplitLayoutController.new lockedSettings).get .Left)).mouse_hover ∧
    ((((SplitLayoutController.new lockedSettings).run
        [(rectW, idT, moveEvent ⟨51, 100⟩), (rectW, idT, pressLeft)]).get
      .Left)).dragging =
      (((SplitLayoutController.new lockedSettings).get .Left)).dragging :=
  C4_lock_enforcement lockedSettings .Left (by decide)
    [(rectW, idT, moveEvent ⟨51, 100⟩), (rectW, idT, pressLeft)]

/-! ## C10: drag bitmask consistency -/

/-- C10: `drag_splits` is 0 at construction, and after every `event` call it
contains an edge's bit exactly when that edge's controller is dragging. -/
theorem C10_drag_bitmask_consistency :
    (∀ settings : SplitLayoutSettings,
      (SplitLayoutController.new settings).drag_splits = 0) ∧
    (∀ (c : SplitLayoutController) (rect : Rectangle) (transform : Matrix2d)
        (e : Event) (edge : SplitOrientation),
      ((c.event rect transform e).drag_splits &&& edge.bit = edge.bit ↔
        ((c.event rect transform e).get edge).dragging = true)) := by
  constructor
  · intro settings; rfl
  · intro c rect transform e edge
    rw [event_drag_splits_eq]
    exact dragMask_bit _ edge

end SplitLib
